import Mathlib

/-!
Shallow embedding of the watsonx FastAPI gateway
(`llmops/ai_agents/watsonx-ai-agent01-k8s/app/main.py`): request
normalization validators, upstream parameter assembly, the IAM token
cache, the generation endpoint with its model-fallback orchestration,
and the embeddings endpoint.  Environment-derived configuration
(`WATSONX_USE_CHAT`, `WATSONX_LLM_MODEL_ID`, `WATSONX_PROJECT_ID`, ...)
is threaded as explicit parameters; the outcomes of outbound HTTP calls
are threaded as explicit oracle values so the control flow of the
handlers can be proved about.
-/

set_option autoImplicit false

namespace WxAgent

/-! ### Python-style string primitives -/

/-- Boolean test that one character list is an initial segment of another. -/
def listIsInit : List Char → List Char → Bool
  | [], _ => true
  | _ :: _, [] => false
  | a :: as, b :: bs => a == b && listIsInit as bs

/-- Boolean test that `needle` occurs as a contiguous sublist of `hay`;
models the Python expression `needle in hay` on strings. -/
def listHasSub (needle : List Char) : List Char → Bool
  | [] => needle.isEmpty
  | c :: t => listIsInit needle (c :: t) || listHasSub needle t

/-- Substring containment on strings, models Python `needle in hay`. -/
def strContainsSub (hay needle : String) : Bool :=
  listHasSub needle.toList hay.toList

/-- Drop leading and trailing whitespace characters. -/
def pyStripChars (l : List Char) : List Char :=
  ((l.dropWhile Char.isWhitespace).reverse.dropWhile Char.isWhitespace).reverse

/-- Model of Python `str.strip()`: remove surrounding whitespace. -/
def pyStrip (s : String) : String := ⟨pyStripChars s.toList⟩

/-- Model of Python `str.lower()` (ASCII case folding). -/
def pyLower (s : String) : String := ⟨s.toList.map Char.toLower⟩

/-- Accumulate a decimal digit string; fails on any non-digit. -/
def parseDigitsAux : List Char → Nat → Option Nat
  | [], acc => some acc
  | c :: cs, acc =>
      if c.isDigit then parseDigitsAux cs (acc * 10 + (c.toNat - 48)) else none

/-- Parse a non-empty list of decimal digits. -/
def parseNatDigits : List Char → Option Nat
  | [] => none
  | c :: cs => parseDigitsAux (c :: cs) 0

/-- Model of Python `int(s)` on a string: surrounding whitespace stripped,
optional sign, then decimal digits; anything else raises (`none`). -/
def pyParseInt (s : String) : Option Int :=
  match pyStripChars s.toList with
  | [] => none
  | '+' :: rest => (parseNatDigits rest).map Int.ofNat
  | '-' :: rest => (parseNatDigits rest).map (fun n => -(n : Int))
  | l => (parseNatDigits l).map Int.ofNat

/-! ### Raw request field values

`PyIn` models the JSON-decoded values a pre-validator can receive for a
single field: JSON `null`, an integer, or a string.  (Other JSON types
reach the same `return None` fallthroughs as integers do in
`normalize_model_id`, and fail `int()` like non-numeric strings in
`coerce_top_k`.) -/

inductive PyIn where
  | vnone
  | vint (n : Int)
  | vstr (s : String)
deriving DecidableEq, Repr

/-- Model of Python `int(v)` under `try/except` for the values of `PyIn`:
`int(None)` raises, `int(i)` is `i`, `int(s)` parses the string. -/
def pyIntOf : PyIn → Option Int
  | .vnone => none
  | .vint n => some n
  | .vstr s => pyParseInt s

/-- Validator `GenerateRequest.coerce_top_k` (main.py lines 64-73):
`None` stays unset, a value that fails `int()` becomes unset, and a
parsed integer is kept only when it is at least 1. -/
def coerce_top_k (v : PyIn) : Option Int :=
  match v with
  | .vnone => none
  | _ =>
      match pyIntOf v with
      | none => none
      | some iv => if iv ≥ 1 then some iv else none

/-- Sentinel placeholders recognised by `normalize_model_id`. -/
def modelSentinels : List String := ["", "string", "none", "null"]

/-- Validator `GenerateRequest.normalize_model_id` (main.py lines 75-85):
`None` stays unset; a string is stripped and compared case-insensitively
against the sentinel placeholders, unset when it matches and the
stripped string otherwise; any non-string value becomes unset. -/
def normalize_model_id (v : PyIn) : Option String :=
  match v with
  | .vnone => none
  | .vstr v0 =>
      let s := pyStrip v0
      if modelSentinels.contains (pyLower s) then none else some s
  | .vint _ => none

/-! ### The normalized generation request and parameter assembly -/

/-- Post-validation `GenerateRequest` (main.py lines 54-62).  Floats are
modelled as rationals. -/
structure GenerateRequest where
  prompt : String
  max_new_tokens : Int := 256
  temperature : Rat := 7 / 10
  top_p : Rat := 9 / 10
  top_k : Option Int := none
  repetition_penalty : Option Rat := some (11 / 10)
  stop_sequences : Option (List String) := none
  model_id : Option String := none
deriving DecidableEq, Repr

/-- Upstream `parameters` mapping (main.py lines 226-238).  `none` in an
optional field means the key is absent from the dict. -/
structure GenParams where
  decoding_method : String
  max_new_tokens : Int
  temperature : Rat
  top_p : Rat
  top_k : Option Int
  repetition_penalty : Option Rat
  stop_sequences : Option (List String)
deriving DecidableEq, Repr

/-- Parameter assembly in `generate` (main.py lines 226-238): the four
base entries always present, `top_k` only when not `None` and at least 1,
`repetition_penalty` only when not `None`, `stop_sequences` only when
truthy (non-`None` and non-empty). -/
def buildParameters (req : GenerateRequest) : GenParams where
  decoding_method := if req.temperature = 0 then "greedy" else "sample"
  max_new_tokens := req.max_new_tokens
  temperature := req.temperature
  top_p := req.top_p
  top_k :=
    match req.top_k with
    | some k => if k ≥ 1 then some k else none
    | none => none
  repetition_penalty := req.repetition_penalty
  stop_sequences :=
    match req.stop_sequences with
    | some l => if l = [] then none else some l
    | none => none

/-! ### IAM token cache (`_get_iam_token`, main.py lines 171-195) -/

/-- Module-level `_token_cache = {"token": None, "exp": 0.0}`; the token
slot holds `None` or the cached string, the expiry is a float instant. -/
structure TokenCache where
  token : Option String
  exp : Rat
deriving DecidableEq, Repr

/-- Result of `int(...)` applied to the JSON value under `expires_in`:
either an integer or a conversion failure (`ValueError`/`TypeError`). -/
inductive IamInt where
  | val (n : Int)
  | invalid
deriving DecidableEq, Repr

/-- Fields of the parsed IAM token response the code reads; `none` in
`access_token` means the key is absent (so `j["access_token"]` raises
`KeyError`), `none` in `expires_in` means `j.get` falls back to 3600. -/
structure IamBody where
  access_token : Option String
  expires_in : Option IamInt
deriving DecidableEq, Repr

/-- Outcome of the outbound `requests.post` to the IAM endpoint:
a 2xx response with parsed JSON body, a non-2xx response (raised as
`HTTPError` by `raise_for_status`), an unparseable body (raised by
`r.json()`), or a transport failure.  The `estr` fields carry the
Python `str(e)` rendering used in error details. -/
inductive ExchangeOutcome where
  | success (body : IamBody)
  | httpError (status : Nat) (body : String) (estr : String)
  | badJson (estr : String)
  | transport (estr : String)
deriving DecidableEq, Repr

/-- Errors a handler can raise: a FastAPI `HTTPException`, or an
uncaught Python exception (`KeyError` / `ValueError`). -/
inductive PyError where
  | httpException (status_code : Nat) (detail : String)
  | keyError (key : String)
  | valueError
deriving DecidableEq, Repr

deriving instance DecidableEq for Except

/-- Return value of the token-cache model: the raised-or-returned
result, the cache after the call, and whether an exchange call to the
identity provider was performed. -/
structure TokenResult where
  result : Except PyError String
  cache : TokenCache
  exchanged : Bool
deriving DecidableEq, Repr

/-- Python truthiness of the `Optional[str]` token slot: `None` and the
empty string are falsy. -/
def tokenTruthy : Option String → Bool
  | none => false
  | some s => !(s == "")

/-- Model of `_get_iam_token` (main.py lines 174-195).  The current time
and the cache are explicit; the single possible exchange call's outcome
is the oracle `ex`.  An empty api key raises 500 before touching the
cache; a truthy cached token whose expiry is more than 60s away is
returned with no exchange; otherwise the exchange runs, and on a
well-formed success the cache is overwritten with the new token and
`now + expires_in` (default 3600).  `HTTPError`, JSON errors and
transport errors are all `requests.RequestException`s and become a 502;
a missing `access_token` key raises `KeyError` and an unconvertible
`expires_in` raises `ValueError`, both without touching the cache. -/
def getIamToken (apikey : String) (now : Rat) (cache : TokenCache)
    (ex : ExchangeOutcome) : TokenResult :=
  if apikey = "" then
    ⟨.error (.httpException 500 "Missing IBMCLOUD_API_KEY"), cache, false⟩
  else if tokenTruthy cache.token && decide (cache.exp > now + 60) then
    ⟨.ok (cache.token.getD ""), cache, false⟩
  else
    match ex with
    | .success j =>
        match j.access_token with
        | none => ⟨.error (.keyError "access_token"), cache, true⟩
        | some tok =>
            match j.expires_in.getD (.val 3600) with
            | .invalid => ⟨.error .valueError, cache, true⟩
            | .val n => ⟨.ok tok, ⟨some tok, now + (n : Rat)⟩, true⟩
    | .httpError _ _ estr =>
        ⟨.error (.httpException 502 ("IAM token error: " ++ estr)), cache, true⟩
    | .badJson estr =>
        ⟨.error (.httpException 502 ("IAM token error: " ++ estr)), cache, true⟩
    | .transport estr =>
        ⟨.error (.httpException 502 ("IAM token error: " ++ estr)), cache, true⟩

/-! ### Upstream generation data and wire bodies -/

/-- One element of the upstream `results` array; the code reads only
`generated_text`, with `""` as the `.get` default. -/
structure WxResult where
  generated_text : Option String
deriving DecidableEq, Repr

/-- Parsed upstream generation response; `none` in `results` covers an
absent or `null` key (both make `data.get("results") or []` empty). -/
structure WxData where
  results : Option (List WxResult)
deriving DecidableEq, Repr

/-- Text extraction in `generate` (main.py lines 252-253):
`results = data.get("results") or []` then
`results[0].get("generated_text", "") if results else ""`. -/
def extractText (data : WxData) : String :=
  match data.results.getD [] with
  | [] => ""
  | r :: _ => r.generated_text.getD ""

/-- One content block of a chat wire message (`{"type": "text", "text": ...}`). -/
structure ContentBlock where
  btype : String
  text : String
deriving DecidableEq, Repr

/-- One wire message of the chat body built in `_wx_chat_call`. -/
structure ChatWireMsg where
  role : String
  content : List ContentBlock
deriving DecidableEq, Repr

/-- Wire body of an outbound generation call: the legacy completion body
built by `_wx_generate_call` (main.py lines 151-161) or the chat body
built by `_wx_chat_call` (main.py lines 127-147). -/
inductive WireBody where
  | completion (input : String) (model_id : String) (project_id : String)
      (parameters : GenParams)
  | chat (messages : List ChatWireMsg) (model_id : String) (project_id : String)
      (parameters : GenParams)
deriving DecidableEq, Repr

/-- Configuration of the generation endpoint that the claims touch:
the `WATSONX_USE_CHAT` toggle, the default `WATSONX_LLM_MODEL_ID`, and
the `WATSONX_PROJECT_ID`. -/
structure GenConfig where
  useChat : Bool
  llmModelId : String
  projectId : String
deriving DecidableEq, Repr

/-- Wire body of one attempt in `generate`: chat protocol wraps the
prompt as a single user message with one text content block
(main.py lines 130-138, 244-248); completion protocol sends the prompt
as `input` (main.py lines 153-158, 250). -/
def genCall (cfg : GenConfig) (prompt : String) (model : String)
    (params : GenParams) : WireBody :=
  if cfg.useChat then
    .chat [⟨"user", [⟨"text", prompt⟩]⟩] model cfg.projectId params
  else
    .completion prompt model cfg.projectId params

/-- Outcome of one outbound generation call as seen by `generate`:
a parsed success body, a non-2xx response raised as `requests.HTTPError`
(with the response status and text, and the `str(e)` rendering), a
non-HTTP `requests.RequestException` (transport failure), or a non-
requests exception raised inside the helper (e.g. the `HTTPException`
from `_get_iam_token`), which no `except` clause in `generate` catches. -/
inductive UpstreamResult where
  | ok (data : WxData)
  | httpError (status : Nat) (body : String) (estr : String)
  | transport (estr : String)
  | raised (e : PyError)
deriving DecidableEq, Repr

/-- Response model `GenerateResponse` (main.py lines 88-91), without the
telemetry-only `mlflow_run_id` side channel. -/
structure GenerateResponse where
  generated_text : String
  raw : WxData
deriving DecidableEq, Repr

/-- Resolution `model_id = req.model_id or LLM_MODEL_ID` (main.py
line 240): Python `or` falls through on `None` and on `""`. -/
def resolvedModel (cfg : GenConfig) (req : GenerateRequest) : String :=
  match req.model_id with
  | none => cfg.llmModelId
  | some s => if s = "" then cfg.llmModelId else s

/-- Retry guard in `generate` (main.py line 260): status 400 or 404, the
request carried an explicitly-set (truthy string) `model_id` different
from the default, and the error body contains `model_not_supported`. -/
def retryCond (cfg : GenConfig) (req : GenerateRequest) (status : Nat)
    (body : String) : Bool :=
  (status == 400 || status == 404) &&
    (match req.model_id with
     | some s => !(s == "") && !(s == cfg.llmModelId)
     | none => false) &&
    strContainsSub body "model_not_supported"

/-- Model of the `/v1/generate` handler (main.py lines 223-274, with the
telemetry block out of scope).  `o1` and `o2` are the outcomes of the
first and, when reached, second outbound generation call; the returned
list records the wire bodies of the calls actually made.  In the
fallback `try`, `except requests.RequestException` precedes `except
requests.HTTPError`, and `HTTPError` is a subclass of
`RequestException`, so every requests-level failure of the second
attempt lands in the first clause and becomes a 502 with detail
`"watsonx request error: " ++ str(e)`. -/
def generate (cfg : GenConfig) (req : GenerateRequest)
    (o1 o2 : UpstreamResult) :
    Except PyError GenerateResponse × List WireBody :=
  let params := buildParameters req
  let model := resolvedModel cfg req
  let b1 := genCall cfg req.prompt model params
  match o1 with
  | .ok data => (.ok ⟨extractText data, data⟩, [b1])
  | .httpError status body _estr =>
      if retryCond cfg req status body then
        let b2 := genCall cfg req.prompt cfg.llmModelId params
        match o2 with
        | .ok d2 => (.ok ⟨extractText d2, d2⟩, [b1, b2])
        | .httpError _ _ estr2 =>
            (.error (.httpException 502 ("watsonx request error: " ++ estr2)),
              [b1, b2])
        | .transport estr2 =>
            (.error (.httpException 502 ("watsonx request error: " ++ estr2)),
              [b1, b2])
        | .raised e => (.error e, [b1, b2])
      else
        (.error (.httpException status body), [b1])
  | .transport estr =>
      (.error (.httpException 502 ("watsonx request error: " ++ estr)), [b1])
  | .raised e => (.error e, [b1])

/-! ### Embeddings endpoint (`/v1/embeddings`, main.py lines 350-381) -/

/-- JSON values appearing in the embeddings wire body. -/
inductive JVal where
  | str (s : String)
  | arr (xs : List String)
deriving DecidableEq, Repr

/-- Request model `EmbeddingsRequest` (main.py lines 94-95):
`input: Union[str, List[str]]`. -/
structure EmbeddingsRequest where
  input : String ⊕ List String
deriving DecidableEq, Repr

/-- One element of the upstream embeddings `results` array; the code
reads `embedding` with `[]` as the `.get` default. -/
structure EmbItem where
  embedding : Option (List Rat)
deriving DecidableEq, Repr

/-- Parsed upstream embeddings response. -/
structure EmbData where
  results : Option (List EmbItem)
deriving DecidableEq, Repr

/-- Response model `EmbeddingsResponse` (main.py lines 98-100). -/
structure EmbeddingsResponse where
  embeddings : List (List Rat)
  raw : EmbData
deriving DecidableEq, Repr

/-- Outcome of the outbound embeddings `requests.post`. -/
inductive EmbUpstream where
  | ok (data : EmbData)
  | httpError (status : Nat) (body : String) (estr : String)
  | transport (estr : String)
deriving DecidableEq, Repr

/-- Observable side effects of one `/v1/embeddings` request: whether
`_get_iam_token` was invoked, and the wire body posted upstream (if the
post was reached). -/
structure EmbTrace where
  tokenCalled : Bool
  posted : Option (List (String × JVal))
deriving DecidableEq, Repr

/-- Input normalization (main.py line 355):
`inputs = req.input if isinstance(req.input, list) else [req.input]`. -/
def normalizeEmbInput : String ⊕ List String → List String
  | .inl s => [s]
  | .inr l => l

/-- Wire body built at main.py lines 358-362, with the field order of
the source dict literal: `inputs` (plural), `model_id`, `project_id`. -/
def embBody (inputs : List String) (modelId projectId : String) :
    List (String × JVal) :=
  [("inputs", .arr inputs), ("model_id", .str modelId), ("project_id", .str projectId)]

/-- Configuration of the embeddings endpoint: `WATSONX_PROJECT_ID` and
`WATSONX_EMBEDDING_MODEL_ID`. -/
structure EmbConfig where
  projectId : String
  embedModelId : String
deriving DecidableEq, Repr

/-- Model of the `/v1/embeddings` handler (main.py lines 350-381).
`tok` is the result of the `_get_iam_token` call (its `HTTPException`
propagates — line 354 is outside any `try`), `up` the outcome of the
upstream post.  An empty project id raises 500 before the token call;
on a 2xx response the vectors are read from `results[i].embedding` with
`[]` defaults; an `HTTPError` surfaces the upstream status and text; a
transport failure becomes a 502 with a fixed message prefix. -/
def embeddings (cfg : EmbConfig) (req : EmbeddingsRequest)
    (tok : Except PyError String) (up : EmbUpstream) :
    Except PyError EmbeddingsResponse × EmbTrace :=
  if cfg.projectId = "" then
    (.error (.httpException 500 "Missing WATSONX_PROJECT_ID"), ⟨false, none⟩)
  else
    match tok with
    | .error e => (.error e, ⟨true, none⟩)
    | .ok _ =>
        let inputs := normalizeEmbInput req.input
        let body := embBody inputs cfg.embedModelId cfg.projectId
        match up with
        | .ok data =>
            let results := data.results.getD []
            let vecs := results.map (fun r => r.embedding.getD [])
            (.ok ⟨vecs, data⟩, ⟨true, some body⟩)
        | .httpError status rbody _ =>
            (.error (.httpException status rbody), ⟨true, some body⟩)
        | .transport estr =>
            (.error (.httpException 502 ("watsonx embeddings error: " ++ estr)),
              ⟨true, some body⟩)

/-- Failure of a credential exchange as observed by `_get_iam_token`:
a transport error, a non-2xx response, an unparseable body, or a 2xx
body that is missing `access_token` or whose `expires_in` does not
convert to an integer. -/
def exchangeFailing : ExchangeOutcome → Bool
  | .success j =>
      j.access_token.isNone ||
        (match j.expires_in.getD (.val 3600) with
         | .invalid => true
         | .val _ => false)
  | .httpError _ _ _ => true
  | .badJson _ => true
  | .transport _ => true

/-! ### Claims -/

/-- C4, counterexample: the validator returns the stripped string, so a
non-sentinel input with surrounding whitespace is not preserved
verbatim: `" m "` normalizes to `"m"`, not `" m "`. -/
theorem normalize_model_id_verbatim_counterexample :
    normalize_model_id (.vstr " m ") = some "m" ∧
      normalize_model_id (.vstr " m ") ≠ some " m " := by
  decide

/-- C4 (amended): a model_id input equal, case-insensitively and after
trimming surrounding whitespace, to one of `""`, `"string"`, `"none"`,
`"null"` normalizes to unset; every other string input normalizes to
its trimmed value (so it is preserved verbatim exactly when it carries
no surrounding whitespace); `None` stays unset. -/
theorem normalize_model_id_spec (s : String) :
    (modelSentinels.contains (pyLower (pyStrip s)) = true →
        normalize_model_id (.vstr s) = none) ∧
    (modelSentinels.contains (pyLower (pyStrip s)) = false →
        normalize_model_id (.vstr s) = some (pyStrip s)) ∧
    normalize_model_id .vnone = none := by
  refine ⟨fun h => ?_, fun h => ?_, rfl⟩ <;>
    simp only [normalize_model_id, h] <;> simp

/-- Witness for C4 at concrete inputs. -/
theorem normalize_model_id_spec_witness :
    normalize_model_id (.vstr " STRING ") = none ∧
      normalize_model_id (.vstr "my-model") = some (pyStrip "my-model") :=
  ⟨(normalize_model_id_spec " STRING ").1 (by decide),
   (normalize_model_id_spec "my-model").2.1 (by decide)⟩

/-- C5: a top_k input on which `int()` fails (including `None` and
non-numeric strings) normalizes to unset, a parsed value below 1
normalizes to unset, and a parsed value of at least 1 is preserved. -/
theorem coerce_top_k_spec (v : PyIn) :
    (pyIntOf v = none → coerce_top_k v = none) ∧
    (∀ n : Int, pyIntOf v = some n → n < 1 → coerce_top_k v = none) ∧
    (∀ n : Int, pyIntOf v = some n → 1 ≤ n → coerce_top_k v = some n) := by
  refine ⟨fun h => ?_, fun n hn hlt => ?_, fun n hn hle => ?_⟩
  · cases v <;> simp_all [coerce_top_k, pyIntOf]
  · cases v <;> simp_all [coerce_top_k, pyIntOf]
  · cases v <;> simp_all [coerce_top_k, pyIntOf]

/-- Witness for C5 at the spec's example inputs. -/
theorem coerce_top_k_spec_witness :
    coerce_top_k (.vstr "abc") = none ∧ coerce_top_k (.vint 0) = none ∧
      coerce_top_k (.vint 3) = some 3 :=
  ⟨(coerce_top_k_spec (.vstr "abc")).1 (by decide),
   (coerce_top_k_spec (.vint 0)).2.1 0 (by decide) (by decide),
   (coerce_top_k_spec (.vint 3)).2.2 3 (by decide) (by decide)⟩

/-- C6: the built parameters set `decoding_method` to `"greedy"` exactly
when the request temperature is 0, and to `"sample"` exactly otherwise. -/
theorem decoding_method_greedy_iff (req : GenerateRequest) :
    ((buildParameters req).decoding_method = "greedy" ↔ req.temperature = 0) ∧
    ((buildParameters req).decoding_method = "sample" ↔ req.temperature ≠ 0) := by
  by_cases h : req.temperature = 0 <;> simp [buildParameters, h]

/-- Witness for C6 at temperature 0. -/
theorem decoding_method_greedy_iff_witness :
    (buildParameters { prompt := "p", temperature := 0 }).decoding_method = "greedy" :=
  (decoding_method_greedy_iff { prompt := "p", temperature := 0 }).1.mpr rfl

/-- C7: `generated_text` extraction is total; it yields the empty string
when the `results` array is absent or empty, the first element's
`generated_text` (with `""` for a missing field) when non-empty, and in
particular the field's value when it is present. -/
theorem extract_generated_text_spec (data : WxData) :
    ((data.results = none ∨ data.results = some []) → extractText data = "") ∧
    (∀ r rs, data.results = some (r :: rs) →
        extractText data = r.generated_text.getD "") ∧
    (∀ r rs t, data.results = some (r :: rs) → r.generated_text = some t →
        extractText data = t) := by
  refine ⟨fun h => ?_, fun r rs h => ?_, fun r rs t h ht => ?_⟩
  · rcases h with h | h <;> simp [extractText, h]
  · simp [extractText, h]
  · simp [extractText, h, ht]

/-- Witness for C7 at concrete upstream bodies. -/
theorem extract_generated_text_spec_witness :
    extractText ⟨some [⟨some "hello"⟩, ⟨some "z"⟩]⟩ = "hello" ∧
      extractText ⟨none⟩ = "" :=
  ⟨(extract_generated_text_spec _).2.2 ⟨some "hello"⟩ [⟨some "z"⟩] "hello" rfl rfl,
   (extract_generated_text_spec _).1 (Or.inl rfl)⟩

/-- C1: when the first attempt fails with HTTP status 400 or 404, the
body contains `model_not_supported`, and the request carried an
explicitly-set (normalized, hence non-empty) model id different from
the configured default, the handler makes exactly one further upstream
call — same protocol, same prompt and parameters, the default model —
whatever the second outcome is, and when the second attempt succeeds
the returned response is built from the second call's body. -/
theorem generate_retry_once (cfg : GenConfig) (req : GenerateRequest)
    (o2 : UpstreamResult) (st : Nat) (bdy estr m : String)
    (hm : req.model_id = some m) (hm0 : m ≠ "") (hmd : m ≠ cfg.llmModelId)
    (hst : st = 400 ∨ st = 404)
    (hb : strContainsSub bdy "model_not_supported" = true) :
    (generate cfg req (.httpError st bdy estr) o2).2 =
      [genCall cfg req.prompt m (buildParameters req),
        genCall cfg req.prompt cfg.llmModelId (buildParameters req)] ∧
    (∀ d2, o2 = .ok d2 →
        (generate cfg req (.httpError st bdy estr) o2).1 =
          .ok ⟨extractText d2, d2⟩) := by
  have h1 : (m == "") = false := by simp [hm0]
  have h2 : (m == cfg.llmModelId) = false := by simp [hmd]
  have hcond : retryCond cfg req st bdy = true := by
    simp only [retryCond, hm, hb, h1, h2]
    rcases hst with h | h <;> subst h <;> simp
  have hres : resolvedModel cfg req = m := by
    simp [resolvedModel, hm, hm0]
  constructor
  · cases o2 <;> simp [generate, hcond, hres]
  · intro d2 h2
    subst h2
    simp [generate, hcond]

/-- Witness for C1: the spec's scenario, completion protocol, first
attempt rejected with 400 `model_not_supported`, second attempt
succeeding with generated text `"second"`. -/
theorem generate_retry_once_witness :
    (generate ⟨false, "default-model", "proj"⟩
        { prompt := "hi", model_id := some "bad-model" }
        (.httpError 400 "model_not_supported" "e1")
        (.ok ⟨some [⟨some "second"⟩]⟩)).1 =
      .ok ⟨extractText ⟨some [⟨some "second"⟩]⟩, ⟨some [⟨some "second"⟩]⟩⟩ :=
  (generate_retry_once ⟨false, "default-model", "proj"⟩
      { prompt := "hi", model_id := some "bad-model" }
      (.ok ⟨some [⟨some "second"⟩]⟩) 400 "model_not_supported" "e1" "bad-model"
      rfl (by decide) (by decide) (Or.inl rfl) (by decide)).2
    ⟨some [⟨some "second"⟩]⟩ rfl

/-- C2: evaluation at the failing input.  After a retry-triggering 400,
a fallback attempt that fails with HTTP 500 and body `"boom"` is
returned to the caller as 502 with detail
`"watsonx request error: " ++ str(e)` — not as the upstream 500 with
its body unchanged — because in the fallback handler the
`except requests.RequestException` clause precedes (and subsumes) the
`except requests.HTTPError` clause. -/
theorem generate_fallback_http_error_bug :
    (generate ⟨false, "default-model", "proj"⟩
        { prompt := "hi", model_id := some "bad-model" }
        (.httpError 400 "model_not_supported" "e1")
        (.httpError 500 "boom" "500 Server Error: Internal Server Error for url: u")).1 =
      .error (.httpException 502
        "watsonx request error: 500 Server Error: Internal Server Error for url: u") ∧
    (generate ⟨false, "default-model", "proj"⟩
        { prompt := "hi", model_id := some "bad-model" }
        (.httpError 400 "model_not_supported" "e1")
        (.httpError 500 "boom" "500 Server Error: Internal Server Error for url: u")).1 ≠
      .error (.httpException 500 "boom") := by
  decide

/-- C3, counterexample: a cached credential whose token is the empty
string and whose expiry (1000) is more than 60 seconds past the current
time (0) still triggers an exchange call, and the returned token is the
exchanged one, not the cached one — Python truthiness of
`_token_cache["token"]` treats `""` as absent. -/
theorem get_token_cached_counterexample :
    ((0 : Rat) + 60 < (1000 : Rat)) ∧
    (getIamToken "k" 0 ⟨some "", 1000⟩
        (.success ⟨some "t2", some (.val 10)⟩)).exchanged = true ∧
    (getIamToken "k" 0 ⟨some "", 1000⟩
        (.success ⟨some "t2", some (.val 10)⟩)).result ≠ .ok "" := by
  refine ⟨by norm_num, ?_, ?_⟩ <;> simp [getIamToken, tokenTruthy]

/-- C3 (amended): given a non-empty api key, a cached credential with a
non-empty token and expiry more than 60 seconds after the current time
is returned unchanged with no exchange call; whenever the cached token
is absent, empty, or its expiry is within 60 seconds, exactly one
exchange call is performed, and on a success carrying `access_token`
and an integer `expires_in` the cache becomes the new token with expiry
`now + expires_in` (default 3600) and that token is returned. -/
theorem get_token_cache_behavior (apikey : String) (now : Rat)
    (cache : TokenCache) (ex : ExchangeOutcome) (hk : apikey ≠ "") :
    (∀ t, cache.token = some t → t ≠ "" → cache.exp > now + 60 →
        getIamToken apikey now cache ex = ⟨.ok t, cache, false⟩) ∧
    ((cache.token = none ∨ cache.token = some "" ∨ cache.exp ≤ now + 60) →
      (getIamToken apikey now cache ex).exchanged = true ∧
      (∀ tok n, ex = .success ⟨some tok, some (.val n)⟩ →
        getIamToken apikey now cache ex =
          ⟨.ok tok, ⟨some tok, now + (n : Rat)⟩, true⟩) ∧
      (∀ tok, ex = .success ⟨some tok, none⟩ →
        getIamToken apikey now cache ex =
          ⟨.ok tok, ⟨some tok, now + ((3600 : Int) : Rat)⟩, true⟩)) := by
  constructor
  · intro t ht ht0 hexp
    have htr : tokenTruthy (some t) = true := by simp [tokenTruthy, ht0]
    simp [getIamToken, hk, ht, htr, hexp]
  · intro habs
    have hg : (tokenTruthy cache.token && decide (cache.exp > now + 60)) = false := by
      rcases habs with h | h | h
      · simp [tokenTruthy, h]
      · simp [tokenTruthy, h]
      · simp [h, not_lt.mpr h]
    refine ⟨?_, fun tok n hexx => ?_, fun tok hexx => ?_⟩
    · cases ex with
      | success j =>
          cases hj : j.access_token with
          | none => simp [getIamToken, hk, hg, hj]
          | some tok =>
              cases hj2 : j.expires_in.getD (.val 3600) with
              | invalid => simp [getIamToken, hk, hg, hj, hj2]
              | val n => simp [getIamToken, hk, hg, hj, hj2]
      | httpError s b e => simp [getIamToken, hk, hg]
      | badJson e => simp [getIamToken, hk, hg]
      | transport e => simp [getIamToken, hk, hg]
    · subst hexx
      simp [getIamToken, hk, hg]
    · subst hexx
      simp [getIamToken, hk, hg]

/-- Witness for C3: a fresh cached token is served from the cache with
no exchange, and an absent token triggers one exchange that fills the
cache. -/
theorem get_token_cache_behavior_witness :
    getIamToken "k" 5 ⟨some "cached", 100⟩ (.transport "t") =
      ⟨.ok "cached", ⟨some "cached", 100⟩, false⟩ ∧
    getIamToken "k" 0 ⟨none, 0⟩ (.success ⟨some "new", some (.val 3600)⟩) =
      ⟨.ok "new", ⟨some "new", 0 + ((3600 : Int) : Rat)⟩, true⟩ := by
  constructor
  · exact (get_token_cache_behavior "k" 5 ⟨some "cached", 100⟩ (.transport "t")
      (by decide)).1 "cached" rfl (by decide) (by norm_num)
  · exact ((get_token_cache_behavior "k" 0 ⟨none, 0⟩
      (.success ⟨some "new", some (.val 3600)⟩) (by decide)).2
      (Or.inl rfl)).2.1 "new" 3600 rfl

/-- C8: with an empty project identifier, the embeddings handler raises
the configuration error 500 `"Missing WATSONX_PROJECT_ID"` without
calling `_get_iam_token` and without posting anything upstream, for
every request, token outcome, and upstream outcome. -/
theorem embeddings_missing_project (cfg : EmbConfig) (req : EmbeddingsRequest)
    (tok : Except PyError String) (up : EmbUpstream)
    (h : cfg.projectId = "") :
    embeddings cfg req tok up =
      (.error (.httpException 500 "Missing WATSONX_PROJECT_ID"), ⟨false, none⟩) := by
  simp [embeddings, h]

/-- Witness for C8 at a concrete unconfigured state. -/
theorem embeddings_missing_project_witness :
    embeddings ⟨"", "emb"⟩ ⟨.inl "a"⟩ (.ok "tok") (.ok ⟨none⟩) =
      (.error (.httpException 500 "Missing WATSONX_PROJECT_ID"), ⟨false, none⟩) :=
  embeddings_missing_project ⟨"", "emb"⟩ ⟨.inl "a"⟩ (.ok "tok") (.ok ⟨none⟩) rfl

/-- C9: once the token is obtained, the posted wire body is exactly
`embBody` of the normalized inputs — the field `"inputs"` (plural)
holding the input list, plus `model_id` and `project_id` — and a single
string input is normalized to the one-element list before building it. -/
theorem embeddings_body_spec (cfg : EmbConfig) (req : EmbeddingsRequest)
    (t : String) (up : EmbUpstream) (hp : cfg.projectId ≠ "") :
    ((embeddings cfg req (.ok t) up).2.posted =
        some (embBody (normalizeEmbInput req.input) cfg.embedModelId
          cfg.projectId)) ∧
    (∀ s, req.input = .inl s →
        (embeddings cfg req (.ok t) up).2.posted =
          some [("inputs", JVal.arr [s]), ("model_id", JVal.str cfg.embedModelId),
            ("project_id", JVal.str cfg.projectId)]) := by
  constructor
  · cases up <;> simp [embeddings, hp]
  · intro s hs
    cases up <;> simp [embeddings, hp, hs, normalizeEmbInput, embBody]

/-- Witness for C9: a single-string request posts a one-element
`"inputs"` array. -/
theorem embeddings_body_spec_witness :
    (embeddings ⟨"proj", "emb"⟩ ⟨.inl "a"⟩ (.ok "tok") (.ok ⟨none⟩)).2.posted =
      some [("inputs", JVal.arr ["a"]), ("model_id", JVal.str "emb"),
        ("project_id", JVal.str "proj")] :=
  (embeddings_body_spec ⟨"proj", "emb"⟩ ⟨.inl "a"⟩ "tok" (.ok ⟨none⟩)
    (by decide)).2 "a" rfl

/-- C10: whenever an exchange call is actually performed and it fails —
transport error, non-2xx response, unparseable body, or a 2xx body
missing `access_token` or with an unconvertible `expires_in` — the
handler raises an error and the token cache is exactly what it was
before the call. -/
theorem get_token_error_atomicity (apikey : String) (now : Rat)
    (cache : TokenCache) (ex : ExchangeOutcome)
    (hex : (getIamToken apikey now cache ex).exchanged = true)
    (hf : exchangeFailing ex = true) :
    (getIamToken apikey now cache ex).cache = cache ∧
    ∃ e, (getIamToken apikey now cache ex).result = .error e := by
  by_cases hk : apikey = ""
  · simp [getIamToken, hk] at hex
  by_cases hguard : (tokenTruthy cache.token && decide (cache.exp > now + 60)) = true
  · simp [getIamToken, hk, hguard] at hex
  have hg : (tokenTruthy cache.token && decide (cache.exp > now + 60)) = false :=
    Bool.eq_false_iff.mpr hguard
  cases ex with
  | success j =>
      cases hj : j.access_token with
      | none => simp [getIamToken, hk, hg, hj]
      | some tok =>
          cases hj2 : j.expires_in.getD (.val 3600) with
          | invalid => simp [getIamToken, hk, hg, hj, hj2]
          | val n =>
              exfalso
              simp [exchangeFailing, hj, hj2] at hf
  | httpError s b e => simp [getIamToken, hk, hg]
  | badJson e => simp [getIamToken, hk, hg]
  | transport e => simp [getIamToken, hk, hg]

/-- Witness for C10: a 401 from the identity provider leaves a stale
cache entry untouched and surfaces an error. -/
theorem get_token_error_atomicity_witness :
    (getIamToken "k" 0 ⟨some "old", 30⟩ (.httpError 401 "denied" "e401")).cache =
      ⟨some "old", 30⟩ ∧
    ∃ e, (getIamToken "k" 0 ⟨some "old", 30⟩
        (.httpError 401 "denied" "e401")).result = .error e :=
  get_token_error_atomicity "k" 0 ⟨some "old", 30⟩ (.httpError 401 "denied" "e401")
    (by simp [getIamToken, tokenTruthy]; norm_num) (by decide)

end WxAgent
